import Mathlib

/-!
Shallow embedding of the generative-content service layer of the repository
(src/unnamed/part_000): credential handling, the retry/backoff executor,
the per-stage request assembly and response handling, the video-job poller,
and the speech-synthesis wrappers.  External JavaScript builtins that the
source calls (String.prototype.includes, String.prototype.trim, JSON.parse)
are embedded as explicit Lean functions or oracle parameters; the remote
service itself is an oracle parameter of each stage model.
-/

/-- Boolean test that the first list is a leading segment of the second
(embeds the position-0 case of JavaScript substring search). -/
def chStarts : List Char → List Char → Bool
  | [], _ => true
  | _ :: _, [] => false
  | a :: as, b :: bs => a == b && chStarts as bs

/-- Boolean substring-occurrence test on character lists
(embeds JavaScript String.prototype.includes). -/
def chHas (n : List Char) : List Char → Bool
  | [] => n.isEmpty
  | b :: bs => chStarts n (b :: bs) || chHas n bs

/-- hay.includes(needle) of JavaScript, on Lean strings. -/
def strContains (hay needle : String) : Bool :=
  chHas needle.data hay.data

/-- A thrown JavaScript Error as the source observes it: a message string and
an optional numeric status field (error.status). -/
structure JsError where
  message : String
  status : Option Nat
deriving Repr, DecidableEq

/-- Lines 24-28 of the source: an error is a quota / rate-limit error when its
message contains "429", "RESOURCE_EXHAUSTED" or "Quota exceeded", or its
status field is 429. -/
def isQuotaError (e : JsError) : Bool :=
  strContains e.message "429" ||
  strContains e.message "RESOURCE_EXHAUSTED" ||
  strContains e.message "Quota exceeded" ||
  e.status == some 429

/-- JavaScript (s || d) for strings: the default wins exactly when s is empty. -/
def jsOrStr (s d : String) : String :=
  if s = "" then d else s

/-- JavaScript (t || d) where t may also be undefined (response.text). -/
def jsOrOptStr (t : Option String) (d : String) : String :=
  match t with
  | none => d
  | some s => if s = "" then d else s

/-- Lines 20-37 of the source: executeWithRetry.  The operation is an
indexed family fn of attempt outcomes (fn i is what the i-th call of the
underlying operation does).  The result also reports how many calls were
made and the list of back-off waits (in ms) taken between calls; the source
guard "retries > 0 && isQuotaError" of line 30 is split into the r + 1
pattern on retries (so retries - 1 is r) and the isQuotaError test, making
the recursion structural. -/
def executeWithRetry {T : Type} (fn : Nat → Except JsError T) :
    Nat → Nat → Nat → Except JsError T × Nat × List Nat
  | retries, baseDelay, attempt =>
    match fn attempt with
    | .ok v => (.ok v, 1, [])
    | .error e =>
      match retries with
      | r + 1 =>
        if isQuotaError e then
          let rest := executeWithRetry fn r (baseDelay * 2) (attempt + 1)
          (rest.1, rest.2.1 + 1, baseDelay :: rest.2.2)
        else (.error e, 1, [])
      | 0 => (.error e, 1, [])

/-- Characters kept by the sanitizing regex replace(/[^\x20-\x7E]/g, '')
of lines 9 and 15: printable ASCII. -/
def printableAscii (c : Char) : Bool :=
  0x20 ≤ c.toNat && c.toNat ≤ 0x7E

/-- The WhiteSpace and LineTerminator set of JavaScript
String.prototype.trim. -/
def jsWhitespaceChar (c : Char) : Bool :=
  let n := c.toNat
  n == 0x20 || (0x09 ≤ n && n ≤ 0x0D) || n == 0xA0 || n == 0x1680 ||
  (0x2000 ≤ n && n ≤ 0x200A) || n == 0x2028 || n == 0x2029 ||
  n == 0x202F || n == 0x205F || n == 0x3000 || n == 0xFEFF

/-- JavaScript String.prototype.trim. -/
def jsTrim (s : String) : String :=
  String.mk (((s.data.dropWhile jsWhitespaceChar).reverse.dropWhile
    jsWhitespaceChar).reverse)

/-- Lines 7-10 of the source: setApiKey.  The stored runtime credential is
the key with non-printable characters removed, then trimmed; the function
returns the value left in the runtime slot. -/
def setApiKey (key : String) : String :=
  jsTrim (String.mk (key.data.filter printableAscii))

/-- The sanitization as the claim words it: every character outside printable
ASCII (0x20-0x7E) removed, then surrounding whitespace trimmed. -/
def claimSanitize (key : String) : String :=
  jsTrim (String.mk (key.data.filter (fun c => !(c.toNat < 0x20 || 0x7E < c.toNat))))

/-- The MissingCredential failure of line 13. -/
def missingCredentialError : JsError :=
  ⟨"API Key وارد نشده است. لطفا وارد شوید.", none⟩

/-- Lines 12-17 of the source: getAiClient.  Fails synchronously when the
runtime credential slot is empty; otherwise yields the cleaned key the
client is built from. -/
def getAiClient (runtimeApiKey : String) : Except JsError String :=
  if runtimeApiKey = "" then .error missingCredentialError
  else .ok (jsTrim (String.mk (runtimeApiKey.data.filter printableAscii)))

/-- One content part of a request to the remote generative service: inline
text or inline binary media with a declared MIME type. -/
inductive ContentPart
  | text (s : String)
  | inlineData (mimeType : String) (data : String)
deriving Repr, DecidableEq

/-- One remote call issued by a stage, as recorded in a stage model's trace. -/
inductive NetCall
  | generate (parts : List ContentPart)
  | speechGenerate (parts : List ContentPart) (voiceName : String)
  | multiSpeechGenerate (parts : List ContentPart) (speakers : List (String × String))
  | submitVideo (prompt : String) (imageBytes : String) (resolution : String)
  | pollOp
  | fetchUrl (url : String)
deriving Repr, DecidableEq

/-- An inline binary payload of a response part (part.inlineData). -/
structure InlineBlob where
  mimeType : String
  data : String
deriving Repr, DecidableEq

/-- One content part of a response candidate. -/
structure RespPart where
  text : Option String
  inlineData : Option InlineBlob
deriving Repr, DecidableEq

/-- One response candidate (candidate.content.parts flattened to its parts). -/
structure Candidate where
  parts : List RespPart
deriving Repr, DecidableEq

/-- A response of the remote generative service as the source reads it:
a flat text field and a candidate list. -/
structure GenResponse where
  text : Option String
  candidates : List Candidate
deriving Repr, DecidableEq

/-- The optional chain response.candidates?.[0]?.content?.parts?.[0]?.inlineData?.data
used by both speech stages (lines 220 and 407). -/
def firstInlineAudioData (r : GenResponse) : Option String :=
  match r.candidates with
  | [] => none
  | c :: _ =>
    match c.parts with
    | [] => none
    | p :: _ => p.inlineData.map (fun b => b.data)

/-- The scan of lines 280-285: walk response.candidates?.[0]?.content?.parts || []
and take the first part carrying inlineData. -/
def firstCandidateInline (r : GenResponse) : Option InlineBlob :=
  let parts := match r.candidates with
    | [] => []
    | c :: _ => c.parts
  (parts.find? (fun p => p.inlineData.isSome)).bind (fun p => p.inlineData)

/-- A JavaScript value as produced by JSON.parse, plus undefined
(for absent object fields). -/
inductive JsValue
  | undefined
  | null
  | boolean (b : Bool)
  | number (n : Int)
  | string (s : String)
  | array (xs : List JsValue)
  | object (fields : List (String × JsValue))

/-- JavaScript truthiness. -/
def truthy : JsValue → Bool
  | .undefined => false
  | .null => false
  | .boolean b => b
  | .number n => !(n == 0)
  | .string s => !(s == "")
  | .array _ => true
  | .object _ => true

/-- JavaScript property access v[k] on a non-null value: a named field of an
object, undefined otherwise (numbers, strings, booleans and arrays have no
own property named analysis / text / description). -/
def jsGet : JsValue → String → JsValue
  | .object fields, k =>
    match fields.find? (fun kv => kv.1 == k) with
    | some kv => kv.2
    | none => .undefined
  | _, _ => .undefined

/-- JavaScript (v || d). -/
def jsOr (v d : JsValue) : JsValue :=
  if truthy v then v else d

/-- The record returned by analyzeSinglePage (analysis, text, description);
fields are JavaScript values because the source copies whatever JSON.parse
produced, defaulting falsy fields to the empty string. -/
structure AnalysisResult where
  analysis : JsValue
  text : JsValue
  description : JsValue

/-- The fixed fallback of line 101, produced when the parse try-block throws. -/
def parseFallbackResult : AnalysisResult :=
  ⟨.string "خطا در پردازش", .string "", .string ""⟩

/-- Lines 93-102 of the source: the try-block around JSON.parse and the field
copies.  The argument is the outcome of JSON.parse on (response.text || "\x7b\x7d").
A parse exception is caught and yields the fixed fallback; a parsed null (or
undefined) makes the field access json.analysis throw inside the same
try-block, so it also yields the fallback; any other parsed value yields the
three fields defaulted through (field || ""). -/
def analyzeHandleResponse (parsed : Except Unit JsValue) : AnalysisResult :=
  match parsed with
  | .error _ => parseFallbackResult
  | .ok .null => parseFallbackResult
  | .ok .undefined => parseFallbackResult
  | .ok v =>
    ⟨jsOr (jsGet v "analysis") (.string ""),
     jsOr (jsGet v "text") (.string ""),
     jsOr (jsGet v "description") (.string "")⟩

/-- Line 45 of the source: the translation instruction around the input text. -/
def translatePromptText (text : String) : String :=
  "Translate the following text to English for a video generation prompt. Keep it concise and visual.\n\nText: " ++ text

/-- The request assembled by translateToEnglish (lines 43-46). -/
def translateRequest (text : String) : List ContentPart :=
  [.text (translatePromptText text)]

/-- Lines 55-69 of the source: the fixed page-analysis instruction template. -/
def analyzeSinglePagePromptText : String :=
  "\n    تصویر این صفحه کتاب درسی را با دقت بسیار بالا تحلیل کن.\n    \n    خروجی‌ها باید دقیقاً به زبان فارسی باشند:\n    1. **تحلیل آموزشی:** هدف آموزشی این صفحه چیست؟ نکات کلیدی را لیست کن.\n    2. **متن:** تمام متن‌های موجود در تصویر را کلمه به کلمه استخراج کن. دقت در اعداد و تیترها حیاتی است.\n    3. **شرح تصویر:** با جزئیات کامل بصری تصویر را توصیف کن (رنگ‌ها، اشیاء، شخصیت‌ها، محیط). فرض کن مخاطب تصویر را نمی‌بیند.\n    \n    فرمت خروجی JSON:\n    \x7b\n      \"analysis\": \"...\",\n      \"text\": \"...\",\n      \"description\": \"...\"\n    \x7d\n  "

/-- The request assembled by analyzeSinglePage (lines 72-91): page image then
the instruction text. -/
def analyzeSinglePageRequest (imageBase64 : String) : List ContentPart :=
  [.inlineData "image/jpeg" imageBase64, .text analyzeSinglePagePromptText]

/-- Lines 113-135 of the source: the course-roadmap instruction with the
teacher context and the page count spliced in. -/
def courseMapPromptText (context : String) (numPages : Nat) : String :=
  "\n    نقش: شما یک برنامه‌ریز آموزشی ارشد هستید.\n    وظیفه: تحلیل تصاویر یک فصل از کتاب درسی و ارائه \"نقشه راه تدریس\".\n    \n    زمینه معلم: \"" ++
  (context ++ ("\"\n    تعداد صفحات: " ++
  (toString numPages ++ "\n    \n    دستورالعمل:\n    1. تمام تصاویر زیر را به ترتیب بررسی کنید.\n    2. ارتباط معنایی بین صفحات را پیدا کنید.\n    3. برای **هر صفحه** یک استراتژی مشخص کنید.\n    \n    خروجی باید دقیقاً به زبان **فارسی** و با فرمت زیر باشد:\n    \n    --- استراتژی فصل ---\n    (یک پاراگراف توضیح کلی)\n    \n    --- تحلیل صفحه به صفحه ---\n    صفحه 1: [عنوان] - [نقش صفحه] - [پیشنهاد رسانه‌ای]\n    ...\n    ")))

/-- Lines 112-145 of the source: the roadmap instruction followed, per page,
by a caption part and the page image part. -/
def analyzeCourseMapRequest (context : String) (pages : List (Nat × String)) : List ContentPart :=
  ContentPart.text (courseMapPromptText context pages.length) ::
    pages.flatMap (fun p =>
      [ContentPart.text ("\n--- تصویر صفحه " ++ (toString p.1 ++ " ---")),
       ContentPart.inlineData "image/jpeg" p.2])

/-- Lines 169-188 of the source: the teacher-script instruction with the
global context, the page analysis and both verified fields spliced in. -/
def teacherScriptPromptText (globalContext pageAnalysis verifiedText verifiedDescription : String) : String :=
  "\n    زمینه کلی درس: " ++
  (globalContext ++ ("\n    تحلیل این صفحه: " ++
  (pageAnalysis ++ ("\n    \n    *** اطلاعات حیاتی و تایید شده توسط اپراتور (منبع حقیقت): ***\n    - متن دقیق صفحه: \"" ++
  (verifiedText ++ ("\"\n    - توصیف دقیق تصویر: \"" ++
  (verifiedDescription ++ "\"\n    \n    هشدار: فقط و فقط بر اساس \"اطلاعات حیاتی\" بالا تدریس کن. اگر چیزی در متن تایید شده نیست، آن را از خودت نساز.\n    اگر شماره صفحه یا تیتری در متن تایید شده آمده، همان درست است.\n    \n    وظیفه: شما یک معلم دبستان هستید. یک متن تدریس جذاب بنویسید.\n    \n    قوانین:\n    1. لحن: پرانرژی و صمیمی.\n    2. اعراب‌گذاری: کلمات را برای تبدیل متن به صدا کاملاً اعراب‌گذاری کن.\n    3. بر اساس متن و تصویر تایید شده درس بده.\n    \n    خروجی: فقط متن فارسی تدریس.\n  ")))))))

/-- The request assembled by generateTeacherScript (lines 190-199). -/
def generateTeacherScriptRequest (imageBase64 globalContext pageAnalysis verifiedText verifiedDescription : String) : List ContentPart :=
  [.inlineData "image/jpeg" imageBase64,
   .text (teacherScriptPromptText globalContext pageAnalysis verifiedText verifiedDescription)]

/-- Lines 235-246 of the source: the storyboard-prompt instruction with the
verified image description spliced in. -/
def storyboardPromptText (verifiedDescription : String) : String :=
  "\n    منبع حقیقت (توصیف تصویر تایید شده): \"" ++
  (verifiedDescription ++ "\"\n    \n    نقش: کارگردان هنری.\n    وظیفه: نوشتن پرامپت استوری‌بورد برای یک تصویرسازی آموزشی بر اساس توصیف بالا.\n    \n    قوانین:\n    1. از توصیف تایید شده استفاده کن تا مطمئن شوی موضوع درست است.\n    2. برای جذابیت بصری، استعاره یا سبک وکتور آرت پیشنهاد بده.\n    3. خروجی فارسی باشد.\n    4. تاکید کن که تصویر بدون متن (Text-Free) باشد.\n  ")

/-- The request assembled by generateStoryboardPrompt (lines 248-258). -/
def generateStoryboardPromptRequest (imageBase64 verifiedDescription : String) : List ContentPart :=
  [.inlineData "image/jpeg" imageBase64, .text (storyboardPromptText verifiedDescription)]

/-- Line 265 of the source: the final storyboard-image prompt. -/
def storyboardImageFinalPrompt (promptText : String) : String :=
  promptText ++ " . (Create a clean educational vector illustration. Important: NO TEXT, NO LETTERS, NO NUMBERS inside the image. Visuals only.)"

/-- Lines 301-309 of the source: the video-prompt instruction with the
verified image description spliced in. -/
def videoPromptText (verifiedDescription : String) : String :=
  "\n    منبع حقیقت (توصیف تایید شده): \"" ++
  (verifiedDescription ++ "\"\n    \n    نقش: کارگردان انیمیشن.\n    وظیفه: نوشتن پرامپت ویدیو بر اساس توصیف بالا.\n    \n    مفهوم اصلی را از توصیف بالا بگیر و آن را متحرک کن.\n    خروجی: متن توصیف صحنه به فارسی.\n  ")

/-- The request assembled by generateVideoPrompt (lines 311-320). -/
def generateVideoPromptRequest (imageBase64 verifiedDescription : String) : List ContentPart :=
  [.inlineData "image/jpeg" imageBase64, .text (videoPromptText verifiedDescription)]

/-- Lines 365-375 of the source: the dialogue instruction with the verified
page text and the teacher script spliced in. -/
def dialoguePromptText (teacherScript verifiedText : String) : String :=
  "\n    اطلاعات تایید شده صفحه: \"" ++
  (verifiedText ++ ("\"\n    متن تدریس معلم: \"" ++
  (teacherScript ++ "\"\n    \n    وظیفه: نوشتن گفتگوی دو دانش‌آموز (علی و رضا) درباره موضوع درس.\n    از اطلاعات تایید شده استفاده کن تا بحث آن‌ها دقیق باشد.\n    \n    فرمت:\n    علی: ...\n    رضا: ...\n  ")))

/-- The request assembled by generateDialogue (lines 377-382). -/
def generateDialogueRequest (imageBase64 teacherScript verifiedText : String) : List ContentPart :=
  [.inlineData "image/jpeg" imageBase64, .text (dialoguePromptText teacherScript verifiedText)]

/-- Lines 399-402 of the source: the static two-speaker voice mapping of the
multi-speaker synthesis request. -/
def multiSpeakerVoices : List (String × String) :=
  [("علی", "Puck"), ("رضا", "Kore")]

/-- Line 389 of the source: the multi-speaker synthesis prompt. -/
def multiSpeakerPromptText (script : String) : String :=
  "TTS the following conversation:\n" ++ script

/-- True when some text part of the request carries the given string as a
literal substring. -/
def requestContainsText (parts : List ContentPart) (s : String) : Bool :=
  parts.any (fun p =>
    match p with
    | .text t => strContains t s
    | .inlineData _ _ => false)

/-- An uncompressed audio container: sample rate, channel count, samples. -/
structure WavBlob where
  sampleRate : Nat
  channels : Nat
  samples : List Nat
deriving Repr, DecidableEq

/-- Modelled from the spec: pcmToWav lives in utils/audioUtils, which is not
under src/; spec section 4.4 says the decoded raw PCM samples are wrapped in a
standard uncompressed audio container at the given sample rate and channel
count before the blob is returned. -/
def pcmToWav (pcm : List Nat) (sampleRate : Nat) (channels : Nat) : WavBlob :=
  ⟨sampleRate, channels, pcm⟩

/-- Lines 40-49 of the source: translateToEnglish.  The oracle gives the
response text (or the thrown error) of the i-th call attempt; the result is
paired with the trace of issued remote calls (each attempt repeats the same
request). -/
def translateToEnglishModel (key text : String)
    (oracle : Nat → Except JsError (Option String)) :
    Except JsError String × List NetCall :=
  match getAiClient key with
  | .error e => (.error e, [])
  | .ok _ =>
    let r := executeWithRetry (fun i => (oracle i).map (fun t => jsOrOptStr t text)) 3 2000 0
    (r.1, List.replicate r.2.1 (NetCall.generate (translateRequest text)))

/-- Lines 53-104 of the source: analyzeSinglePage.  jsonParse is the
JSON.parse builtin (an oracle: JSON syntax is outside the repository); the
remote oracle gives each attempt's response text. -/
def analyzeSinglePageModel (key imageBase64 : String)
    (jsonParse : String → Except Unit JsValue)
    (oracle : Nat → Except JsError (Option String)) :
    Except JsError AnalysisResult × List NetCall :=
  match getAiClient key with
  | .error e => (.error e, [])
  | .ok _ =>
    let r := executeWithRetry
      (fun i => (oracle i).map
        (fun t => analyzeHandleResponse (jsonParse (jsOrOptStr t "\x7b\x7d")))) 3 2000 0
    (r.1, List.replicate r.2.1 (NetCall.generate (analyzeSinglePageRequest imageBase64)))

/-- Lines 109-155 of the source: analyzeCourseMap, with its fixed fallback
text when the response carries no text. -/
def analyzeCourseMapModel (key context : String) (pages : List (Nat × String))
    (oracle : Nat → Except JsError (Option String)) :
    Except JsError String × List NetCall :=
  match getAiClient key with
  | .error e => (.error e, [])
  | .ok _ =>
    let r := executeWithRetry
      (fun i => (oracle i).map (fun t => jsOrOptStr t "تحلیل انجام نشد.")) 3 2000 0
    (r.1, List.replicate r.2.1 (NetCall.generate (analyzeCourseMapRequest context pages)))

/-- Lines 159-202 of the source: generateTeacherScript, with its fixed
fallback text when the response carries no text. -/
def generateTeacherScriptModel (key imageBase64 globalContext pageAnalysis verifiedText verifiedDescription : String)
    (oracle : Nat → Except JsError (Option String)) :
    Except JsError String × List NetCall :=
  match getAiClient key with
  | .error e => (.error e, [])
  | .ok _ =>
    let r := executeWithRetry
      (fun i => (oracle i).map (fun t => jsOrOptStr t "خطا در تولید متن معلم.")) 3 2000 0
    (r.1, List.replicate r.2.1 (NetCall.generate
      (generateTeacherScriptRequest imageBase64 globalContext pageAnalysis verifiedText verifiedDescription)))

/-- Lines 204-226 of the source: generateSpeech.  decode is the base64
decoder of utils/audioUtils (not under src/), taken as a parameter; the
extracted payload is wrapped at 24000 Hz mono.  The speed argument is
accepted and ignored exactly as in the source. -/
def generateSpeechModel (key text voiceName : String) (speed : Nat)
    (decode : String → List Nat)
    (oracle : Nat → Except JsError GenResponse) :
    Except JsError WavBlob × List NetCall :=
  match getAiClient key with
  | .error e => (.error e, [])
  | .ok _ =>
    let r := executeWithRetry
      (fun i =>
        match oracle i with
        | .error e => .error e
        | .ok resp =>
          match firstInlineAudioData resp with
          | none => .error ⟨"داده صوتی دریافت نشد", none⟩
          | some b64 => .ok (pcmToWav (decode b64) 24000 1)) 3 2000 0
    (r.1, List.replicate r.2.1 (NetCall.speechGenerate [ContentPart.text text] voiceName))

/-- Lines 230-261 of the source: generateStoryboardPrompt, with its fixed
fallback text when the response carries no text. -/
def generateStoryboardPromptModel (key imageBase64 verifiedDescription : String)
    (oracle : Nat → Except JsError (Option String)) :
    Except JsError String × List NetCall :=
  match getAiClient key with
  | .error e => (.error e, [])
  | .ok _ =>
    let r := executeWithRetry
      (fun i => (oracle i).map (fun t => jsOrOptStr t "خطا در تولید پرامپت.")) 3 2000 0
    (r.1, List.replicate r.2.1 (NetCall.generate
      (generateStoryboardPromptRequest imageBase64 verifiedDescription)))

/-- Lines 263-292 of the source: generateStoryboardImage.  The inner
try-block scans the first candidate's parts for inline data and builds a
data URL with the hard-coded image/png mime type; the inner catch rewraps
any failure as new Error(error.message || "خطا در سرویس تصویر"), dropping
the status field. -/
def generateStoryboardImageModel (key promptText : String)
    (oracle : Nat → Except JsError GenResponse) :
    Except JsError String × List NetCall :=
  match getAiClient key with
  | .error e => (.error e, [])
  | .ok _ =>
    let r := executeWithRetry
      (fun i =>
        match
          (match oracle i with
           | .error e => Except.error e
           | .ok resp =>
             match firstCandidateInline resp with
             | some blob => Except.ok ("data:image/png;base64," ++ blob.data)
             | none => Except.error (⟨"تصویر تولید نشد.", none⟩ : JsError))
        with
        | .ok url => .ok url
        | .error e => .error ⟨jsOrStr e.message "خطا در سرویس تصویر", none⟩) 3 2000 0
    (r.1, List.replicate r.2.1 (NetCall.generate
      [ContentPart.text (storyboardImageFinalPrompt promptText)]))

/-- Lines 296-323 of the source: generateVideoPrompt, whose fallback when the
response carries no text is the empty string. -/
def generateVideoPromptModel (key imageBase64 verifiedDescription : String)
    (oracle : Nat → Except JsError (Option String)) :
    Except JsError String × List NetCall :=
  match getAiClient key with
  | .error e => (.error e, [])
  | .ok _ =>
    let r := executeWithRetry (fun i => (oracle i).map (fun t => jsOrOptStr t "")) 3 2000 0
    (r.1, List.replicate r.2.1 (NetCall.generate
      (generateVideoPromptRequest imageBase64 verifiedDescription)))

/-- A video job handle as the source reads it: the completion flag and the
collapsed optional chain response?.generatedVideos?.[0]?.video?.uri. -/
structure VideoHandle where
  done : Bool
  uri : Option String
deriving Repr, DecidableEq

/-- The VideoFailed error of line 350. -/
def videoFailedError : JsError :=
  ⟨"تولید ویدیو ناموفق بود.", none⟩

/-- Lines 344-347 of the source: the polling loop.  refetch gives the handle
returned by the i-th status re-fetch; the loop has no bound in the source, so
the model carries fuel and returns none when the loop is still running after
fuel re-fetches.  On termination it returns the completed handle and the
number of re-fetch calls performed. -/
def pollVideo (refetch : Nat → VideoHandle) :
    VideoHandle → Nat → Nat → Option (VideoHandle × Nat)
  | op, count, fuel =>
    if op.done then some (op, count)
    else
      match fuel with
      | 0 => none
      | f + 1 => pollVideo refetch (refetch count) (count + 1) f

/-- One attempt of the generateVideo body (lines 330-353): submit, poll to
completion, extract the locator, fetch the bytes with the credential appended.
fetchO gives the body returned by fetch for a URL.  none means the unbounded
polling loop was still running after the model's fuel. -/
def videoAttempt (submit : VideoHandle) (refetch : Nat → VideoHandle)
    (fetchO : String → String) (key englishPrompt imageBase64 resolution : String)
    (fuel : Nat) : Option (Except JsError String × List NetCall) :=
  match pollVideo refetch submit 0 fuel with
  | none => none
  | some (final, count) =>
    let calls := NetCall.submitVideo englishPrompt imageBase64 resolution ::
      List.replicate count NetCall.pollOp
    match final.uri with
    | none => some (.error videoFailedError, calls)
    | some uri =>
      let url := uri ++ ("&key=" ++ key)
      some (.ok (fetchO url), calls ++ [NetCall.fetchUrl url])

/-- Lines 20-37 again, lifted to traced attempts that may diverge (the video
attempt's unbounded poll): the same guard, recursion and back-off as
executeWithRetry, collecting each attempt's remote calls, and none as soon
as an attempt diverges.  The guard is split exactly as in executeWithRetry. -/
def executeWithRetryOpt {T : Type}
    (fn : Nat → Option (Except JsError T × List NetCall)) :
    Nat → Nat → Nat → Option (Except JsError T × List NetCall × List Nat)
  | retries, baseDelay, attempt =>
    match fn attempt with
    | none => none
    | some (.ok v, calls) => some (.ok v, calls, [])
    | some (.error e, calls) =>
      match retries with
      | r + 1 =>
        if isQuotaError e then
          match executeWithRetryOpt fn r (baseDelay * 2) (attempt + 1) with
          | none => none
          | some (res, calls2, waits) => some (res, calls ++ calls2, baseDelay :: waits)
        else some (.error e, calls, [])
      | 0 => some (.error e, calls, [])

/-- Lines 325-355 of the source: generateVideo.  Credential check, then the
translation stage, then the submit/poll/fetch attempt wrapped in the retry
executor with the budget reduced to 1 (baseDelay keeps its default 2000).
submit and refetch are indexed by the retry attempt; none means the poll
loop out-ran the model's fuel. -/
def generateVideoModel (key userPrompt imageBase64 resolution : String)
    (translateO : Nat → Except JsError (Option String))
    (submitO : Nat → VideoHandle) (refetchO : Nat → Nat → VideoHandle)
    (fetchO : String → String) (fuel : Nat) :
    Option (Except JsError String × List NetCall) :=
  match getAiClient key with
  | .error e => some (.error e, [])
  | .ok _ =>
    match translateToEnglishModel key userPrompt translateO with
    | (.error e, tCalls) => some (.error e, tCalls)
    | (.ok englishPrompt, tCalls) =>
      match executeWithRetryOpt
        (fun i => videoAttempt (submitO i) (refetchO i) fetchO key englishPrompt imageBase64 resolution fuel)
        1 2000 0 with
      | none => none
      | some (res, calls, _waits) => some (res, tCalls ++ calls)

/-- Lines 359-385 of the source: generateDialogue, whose fallback when the
response carries no text is the empty string. -/
def generateDialogueModel (key imageBase64 teacherScript verifiedText : String)
    (oracle : Nat → Except JsError (Option String)) :
    Except JsError String × List NetCall :=
  match getAiClient key with
  | .error e => (.error e, [])
  | .ok _ =>
    let r := executeWithRetry (fun i => (oracle i).map (fun t => jsOrOptStr t "")) 3 2000 0
    (r.1, List.replicate r.2.1 (NetCall.generate
      (generateDialogueRequest imageBase64 teacherScript verifiedText)))

/-- Lines 387-411 of the source: generateMultiSpeakerAudio, with the static
two-speaker voice mapping and the 24000 Hz mono container. -/
def generateMultiSpeakerAudioModel (key script : String)
    (decode : String → List Nat)
    (oracle : Nat → Except JsError GenResponse) :
    Except JsError WavBlob × List NetCall :=
  match getAiClient key with
  | .error e => (.error e, [])
  | .ok _ =>
    let r := executeWithRetry
      (fun i =>
        match oracle i with
        | .error e => .error e
        | .ok resp =>
          match firstInlineAudioData resp with
          | none => .error ⟨"صدا تولید نشد", none⟩
          | some b64 => .ok (pcmToWav (decode b64) 24000 1)) 3 2000 0
    (r.1, List.replicate r.2.1 (NetCall.multiSpeechGenerate
      [ContentPart.text (multiSpeakerPromptText script)] multiSpeakerVoices))

/-- All eleven stage models invoked with the given runtime credential fail
immediately with the MissingCredential error and an empty remote-call trace. -/
def stagesFailMissingCredential (key : String) : Prop :=
  (∀ text oracle, translateToEnglishModel key text oracle = (.error missingCredentialError, []))
  ∧ (∀ img parse oracle, analyzeSinglePageModel key img parse oracle = (.error missingCredentialError, []))
  ∧ (∀ ctx pages oracle, analyzeCourseMapModel key ctx pages oracle = (.error missingCredentialError, []))
  ∧ (∀ img gc pa vt vd oracle, generateTeacherScriptModel key img gc pa vt vd oracle = (.error missingCredentialError, []))
  ∧ (∀ text voice speed decode oracle, generateSpeechModel key text voice speed decode oracle = (.error missingCredentialError, []))
  ∧ (∀ img vd oracle, generateStoryboardPromptModel key img vd oracle = (.error missingCredentialError, []))
  ∧ (∀ p oracle, generateStoryboardImageModel key p oracle = (.error missingCredentialError, []))
  ∧ (∀ img vd oracle, generateVideoPromptModel key img vd oracle = (.error missingCredentialError, []))
  ∧ (∀ uP img res tO subO refO fO fuel, generateVideoModel key uP img res tO subO refO fO fuel = some (.error missingCredentialError, []))
  ∧ (∀ img ts vt oracle, generateDialogueModel key img ts vt oracle = (.error missingCredentialError, []))
  ∧ (∀ script decode oracle, generateMultiSpeakerAudioModel key script decode oracle = (.error missingCredentialError, []))

/-- JSON.parse behaviour used by the C5 counterexample run: the payload "[]"
is valid JSON and parses to an empty array (schema-violating for the declared
three-string-field object schema); everything else is treated as non-JSON. -/
def cexJsonParse : String → Except Unit JsValue := fun s =>
  if s = "[]" then .ok (JsValue.array []) else .error ()

/-- Remote oracle for the C5 counterexample run: every attempt answers with
the valid-JSON, schema-violating payload "[]". -/
def cexAnalysisOracle : Nat → Except JsError (Option String) := fun _ =>
  .ok (some "[]")

/-- JSON.parse behaviour for the C5 witness run: the payload is not JSON. -/
def c5WitnessParse : String → Except Unit JsValue := fun _ => .error ()

/-- Remote oracle for the C5 witness run. -/
def c5WitnessOracle : Nat → Except JsError (Option String) := fun _ =>
  .ok (some "not json")

/-- The attempt family of the C2 witness: every call fails with a 429. -/
def c2Fn : Nat → Except JsError Nat := fun _ => .error ⟨"429", none⟩

/-- The attempt family of the C3 witness: the first call fails with an
ordinary server error. -/
def c3Fn : Nat → Except JsError Nat := fun _ => .error ⟨"boom", some 500⟩

/-- The storyboard-image response used by the C8 counterexample and witness:
one candidate whose single part carries inline data declared image/jpeg. -/
def c8Response : GenResponse :=
  ⟨none, [⟨[⟨none, some ⟨"image/jpeg", "QUJD"⟩⟩]⟩]⟩

/-- Remote oracle answering every storyboard-image attempt with c8Response. -/
def cexImgOracle : Nat → Except JsError GenResponse := fun _ => .ok c8Response

/-- The multi-speaker response of the C9 witness: the first candidate's first
part carries inline audio data. -/
def c9Response : GenResponse :=
  ⟨none, [⟨[⟨none, some ⟨"audio/pcm", "QUJD"⟩⟩]⟩]⟩

/-- Remote oracle answering every multi-speaker attempt with c9Response. -/
def c9Oracle : Nat → Except JsError GenResponse := fun _ => .ok c9Response

/-- Base64 decoder stand-in for the C9 witness run. -/
def c9Decode : String → List Nat := fun _ => [1, 2, 3]

/-- Translation oracle of the C6 and C7 witness runs. -/
def c6TranslateO : Nat → Except JsError (Option String) := fun _ =>
  .ok (some "a red fox")

/-- Submit oracle of the C6 and C7 witness runs: the fresh job is pending. -/
def c6SubmitO : Nat → VideoHandle := fun _ => ⟨false, none⟩

/-- Re-fetch oracle of the C6 witness run: pending once, then done with a
locator.  The job status sequence is [pending, pending, done-with-locator]. -/
def c6RefetchO : Nat → Nat → VideoHandle := fun _ n =>
  if n = 0 then ⟨false, none⟩ else ⟨true, some "https://v.example/file?alt=media"⟩

/-- Fetch oracle of the C6 witness run. -/
def c6FetchO : String → String := fun _ => "VIDEOBYTES"

/-- Re-fetch oracle of the C7 witness run: the first re-fetch reports the job
done without a result locator. -/
def c7RefetchO : Nat → Nat → VideoHandle := fun _ _ => ⟨true, none⟩

set_option maxRecDepth 16000

theorem strData_append (a b : String) : (a ++ b).data = a.data ++ b.data := rfl

theorem chStarts_append_self (n t : List Char) : chStarts n (n ++ t) = true := by
  induction n with
  | nil => rfl
  | cons a as ih => simp [chStarts, ih]

theorem chHas_self_append (n t : List Char) : chHas n (n ++ t) = true := by
  cases n with
  | nil => cases t <;> simp [chHas, chStarts, List.isEmpty]
  | cons a as =>
    have h := chStarts_append_self (a :: as) t
    simp [chHas]
    simp [List.cons_append] at h
    simp [h]

theorem chHas_append_of (n pre hay : List Char) (h : chHas n hay = true) :
    chHas n (pre ++ hay) = true := by
  induction pre with
  | nil => simpa using h
  | cons a as ih => simp [chHas, List.cons_append, ih]

theorem strContains_suffix (pre hay s : String) (h : strContains hay s = true) :
    strContains (pre ++ hay) s = true := by
  unfold strContains at h ⊢
  rw [strData_append]
  exact chHas_append_of _ _ _ h

theorem strContains_self_append (s post : String) : strContains (s ++ post) s = true := by
  unfold strContains
  rw [strData_append]
  exact chHas_self_append _ _

theorem pollVideo_done (r : Nat → VideoHandle) (op : VideoHandle) (c fuel : Nat)
    (h : op.done = true) : pollVideo r op c fuel = some (op, c) := by
  cases fuel <;> simp [pollVideo, h]

theorem stagesFail_empty : stagesFailMissingCredential "" := by
  refine ⟨?_, ?_, ?_, ?_, ?_, ?_, ?_, ?_, ?_, ?_, ?_⟩ <;> intros <;> rfl

theorem setApiKey_removable_empty (k : String)
    (h : ∀ c ∈ k.data, c.toNat < 0x20 ∨ 0x7E < c.toNat ∨ c.toNat = 0x20) :
    setApiKey k = "" := by
  have hall : ∀ c ∈ k.data.filter printableAscii, jsWhitespaceChar c = true := by
    intro c hc
    rw [List.mem_filter] at hc
    have h1 := h c hc.1
    have h2 : 0x20 ≤ c.toNat ∧ c.toNat ≤ 0x7E := by
      have h3 := hc.2
      simp [printableAscii] at h3
      exact h3
    have hsp : c.toNat = 0x20 := by omega
    simp [jsWhitespaceChar, hsp]
  show String.mk ((((k.data.filter printableAscii).dropWhile jsWhitespaceChar).reverse.dropWhile jsWhitespaceChar).reverse) = ""
  rw [List.dropWhile_eq_nil_iff.mpr hall]
  rfl

/-- Claim C1, counterexample: with verified extractedText "ZQXJW" and verified
imageDescription "QQD", the storyboard-prompt stage's assembled request does
not contain the literal substring "ZQXJW" — the claim that every downstream
stage's request contains both verified fields fails on the code, because
generateStoryboardPrompt receives and embeds only the image description. -/
theorem storyboardRequest_lacks_extractedText :
    requestContainsText (generateStoryboardPromptRequest "img" "QQD") "ZQXJW" = false := by
  decide

/-- Claim C1, amended: each downstream stage embeds verbatim exactly the
verified field(s) it receives: the teacher-script request contains both the
verified extractedText and the verified imageDescription, the
storyboard-prompt and video-prompt requests contain the verified
imageDescription, and the dialogue request contains the verified
extractedText — for every value of the fields, the empty string included. -/
theorem verifiedFields_request_propagation
    (imageBase64 globalContext pageAnalysis verifiedText verifiedDescription teacherScript : String) :
    requestContainsText (generateTeacherScriptRequest imageBase64 globalContext pageAnalysis verifiedText verifiedDescription) verifiedText = true
    ∧ requestContainsText (generateTeacherScriptRequest imageBase64 globalContext pageAnalysis verifiedText verifiedDescription) verifiedDescription = true
    ∧ requestContainsText (generateStoryboardPromptRequest imageBase64 verifiedDescription) verifiedDescription = true
    ∧ requestContainsText (generateVideoPromptRequest imageBase64 verifiedDescription) verifiedDescription = true
    ∧ requestContainsText (generateDialogueRequest imageBase64 teacherScript verifiedText) verifiedText = true := by
  refine ⟨?_, ?_, ?_, ?_, ?_⟩ <;>
    simp only [requestContainsText, generateTeacherScriptRequest, generateStoryboardPromptRequest,
      generateVideoPromptRequest, generateDialogueRequest, List.any_cons, List.any_nil,
      Bool.false_or, Bool.or_false] <;>
    simp only [teacherScriptPromptText, storyboardPromptText, videoPromptText, dialoguePromptText] <;>
    (repeat (first | exact strContains_self_append _ _ | apply strContains_suffix))

/-- Claim C2: an operation whose every attempt fails with a rate-limit error,
run through executeWithRetry with retries 3 and baseDelay 2000, is attempted
exactly 4 times with waits 2000, 4000, 8000 between attempts, and the final
attempt's error is propagated. -/
theorem executeWithRetry_quota_exhaustion {T : Type} (fn : Nat → Except JsError T)
    (h : ∀ n, ∃ e, fn n = Except.error e ∧ isQuotaError e = true)
    (e3 : JsError) (h3 : fn 3 = Except.error e3) :
    executeWithRetry fn 3 2000 0 = (.error e3, 4, [2000, 4000, 8000]) := by
  obtain ⟨e0, h0, q0⟩ := h 0
  obtain ⟨e1, h1, q1⟩ := h 1
  obtain ⟨e2, h2, q2⟩ := h 2
  have q3 : isQuotaError e3 = true := by
    obtain ⟨e, he, q⟩ := h 3
    rw [h3] at he
    cases he
    exact q
  simp [executeWithRetry, h0, h1, h2, h3, q0, q1, q2, q3]

/-- Claim C2, witness: the all-429 operation c2Fn exhausts the budget. -/
theorem executeWithRetry_quota_exhaustion_witness :
    executeWithRetry c2Fn 3 2000 0 = (.error ⟨"429", none⟩, 4, [2000, 4000, 8000]) :=
  executeWithRetry_quota_exhaustion c2Fn (fun _ => ⟨⟨"429", none⟩, rfl, by decide⟩)
    ⟨"429", none⟩ rfl

/-- Claim C3: an operation failing on its first call with a non-rate-limit
error is propagated by executeWithRetry at once — one call, no waits, and the
very same error value — whatever the retry budget and base delay. -/
theorem executeWithRetry_nonquota_first_failure {T : Type} (fn : Nat → Except JsError T)
    (retries baseDelay : Nat) (e : JsError)
    (h0 : fn 0 = Except.error e) (hq : isQuotaError e = false) :
    executeWithRetry fn retries baseDelay 0 = (.error e, 1, []) := by
  cases retries <;> simp [executeWithRetry, h0, hq]

/-- Claim C3, witness: a plain 500 error propagates on the first call. -/
theorem executeWithRetry_nonquota_first_failure_witness :
    executeWithRetry c3Fn 3 2000 0 = (.error ⟨"boom", some 500⟩, 1, []) :=
  executeWithRetry_nonquota_first_failure c3Fn 3 2000 ⟨"boom", some 500⟩ rfl (by decide)

/-- Claim C4: with the runtime credential slot empty, every one of the eleven
stage models fails immediately with the MissingCredential error and an empty
remote-call trace — zero network calls. -/
theorem stages_missing_credential_fail_fast : stagesFailMissingCredential "" :=
  stagesFail_empty

/-- Claim C5, counterexample: fed the valid-JSON but schema-violating payload
"[]", the page-analysis stage does not return the error-marked fallback — it
returns the structure with all three fields defaulted to the empty string, so
the claim's "returns the fixed fallback structure with an error marker in the
analysis field" fails on the code for schema-violating (as opposed to
non-JSON) payloads. -/
theorem analyzeSinglePage_schema_fallback_cex :
    (analyzeSinglePageModel "k" "img" cexJsonParse cexAnalysisOracle).1 =
      Except.ok ⟨.string "", .string "", .string ""⟩
    ∧ (analyzeSinglePageModel "k" "img" cexJsonParse cexAnalysisOracle).1 ≠
      Except.ok parseFallbackResult := by
  refine ⟨rfl, fun h => ?_⟩
  injection h with h1
  simp [cexJsonParse, jsOrOptStr, analyzeHandleResponse, jsGet, jsOr, truthy,
    parseFallbackResult] at h1

/-- Claim C5, amended: the page-analysis stage never raises from parsing —
when the remote call succeeds the stage returns ok of the handled parse
outcome; a payload that fails JSON parsing (or parses to null, which makes
the field access inside the same try-block throw) yields the fixed
error-marked fallback, while any other payload yields the structure with
missing or falsy fields defaulted to the empty string, without the error
marker. -/
theorem analyzeSinglePage_parse_recovery (key imageBase64 payload : String)
    (jsonParse : String → Except Unit JsValue)
    (oracle : Nat → Except JsError (Option String))
    (hk : key ≠ "") (h0 : oracle 0 = .ok (some payload)) (hp : payload ≠ "") :
    (analyzeSinglePageModel key imageBase64 jsonParse oracle).1 =
      .ok (analyzeHandleResponse (jsonParse payload))
    ∧ (∀ u : Unit, jsonParse payload = .error u →
        analyzeHandleResponse (jsonParse payload) = parseFallbackResult)
    ∧ (jsonParse payload = .ok .null →
        analyzeHandleResponse (jsonParse payload) = parseFallbackResult) := by
  refine ⟨?_, ?_, ?_⟩
  · simp [analyzeSinglePageModel, getAiClient, hk, executeWithRetry, h0, jsOrOptStr, hp,
      Except.map]
  · intro u hu
    simp [hu, analyzeHandleResponse]
  · intro hu
    simp [hu, analyzeHandleResponse]

/-- Claim C5, witness: a non-JSON payload is recovered to the fallback. -/
theorem analyzeSinglePage_parse_recovery_witness :
    ((analyzeSinglePageModel "k" "img" c5WitnessParse c5WitnessOracle).1 =
      .ok (analyzeHandleResponse (c5WitnessParse "not json")))
    ∧ (∀ u : Unit, c5WitnessParse "not json" = .error u →
        analyzeHandleResponse (c5WitnessParse "not json") = parseFallbackResult)
    ∧ (c5WitnessParse "not json" = .ok .null →
        analyzeHandleResponse (c5WitnessParse "not json") = parseFallbackResult) :=
  analyzeSinglePage_parse_recovery "k" "img" "not json" c5WitnessParse c5WitnessOracle
    (by decide) rfl (by decide)

/-- Claim C6: on a run whose job status sequence is pending (submit), pending
(first re-fetch), done-with-locator (second re-fetch), generateVideo performs
exactly 2 status re-fetches and one final fetch against the completed job's
locator with the credential appended as a query parameter, and the returned
blob is exactly what that single fetch returned. -/
theorem generateVideo_two_refetch_trace
    (key userPrompt imageBase64 resolution ep uri : String) (u0 u1 : Option String)
    (translateO : Nat → Except JsError (Option String))
    (submitO : Nat → VideoHandle) (refetchO : Nat → Nat → VideoHandle)
    (fetchO : String → String) (f : Nat)
    (hk : key ≠ "") (ht : translateO 0 = .ok (some ep)) (hep : ep ≠ "")
    (hsub : submitO 0 = ⟨false, u0⟩) (hr0 : refetchO 0 0 = ⟨false, u1⟩)
    (hr1 : refetchO 0 1 = ⟨true, some uri⟩) :
    generateVideoModel key userPrompt imageBase64 resolution translateO submitO refetchO fetchO (f + 2) =
      some (.ok (fetchO (uri ++ ("&key=" ++ key))),
        [NetCall.generate (translateRequest userPrompt),
         NetCall.submitVideo ep imageBase64 resolution,
         NetCall.pollOp, NetCall.pollOp,
         NetCall.fetchUrl (uri ++ ("&key=" ++ key))]) := by
  simp [generateVideoModel, getAiClient, hk, translateToEnglishModel, executeWithRetry, ht,
    jsOrOptStr, hep, executeWithRetryOpt, videoAttempt, pollVideo, pollVideo_done, hsub, hr0,
    hr1, Except.map, List.replicate]

/-- Claim C6, witness: a concrete pending-pending-done run. -/
theorem generateVideo_two_refetch_trace_witness :
    generateVideoModel "k" "p" "img" "720p" c6TranslateO c6SubmitO c6RefetchO c6FetchO 2 =
      some (.ok (c6FetchO ("https://v.example/file?alt=media" ++ ("&key=" ++ "k"))),
        [NetCall.generate (translateRequest "p"),
         NetCall.submitVideo "a red fox" "img" "720p",
         NetCall.pollOp, NetCall.pollOp,
         NetCall.fetchUrl ("https://v.example/file?alt=media" ++ ("&key=" ++ "k"))]) :=
  generateVideo_two_refetch_trace "k" "p" "img" "720p" "a red fox"
    "https://v.example/file?alt=media" none none c6TranslateO c6SubmitO c6RefetchO c6FetchO 0
    (by decide) rfl (by decide) rfl rfl rfl

/-- Claim C7: on a run whose job completes without a result locator, the
video stage fails with the VideoFailed error, and once the completion flag is
true no further fetch is performed — the trace ends at the last poll, with no
fetchUrl entry. -/
theorem generateVideo_done_without_locator
    (key userPrompt imageBase64 resolution ep : String) (u0 : Option String)
    (translateO : Nat → Except JsError (Option String))
    (submitO : Nat → VideoHandle) (refetchO : Nat → Nat → VideoHandle)
    (fetchO : String → String) (f : Nat)
    (hk : key ≠ "") (ht : translateO 0 = .ok (some ep)) (hep : ep ≠ "")
    (hsub : submitO 0 = ⟨false, u0⟩) (hr0 : refetchO 0 0 = ⟨true, none⟩) :
    generateVideoModel key userPrompt imageBase64 resolution translateO submitO refetchO fetchO (f + 1) =
      some (.error videoFailedError,
        [NetCall.generate (translateRequest userPrompt),
         NetCall.submitVideo ep imageBase64 resolution,
         NetCall.pollOp]) := by
  have hq : isQuotaError videoFailedError = false := by decide
  simp [generateVideoModel, getAiClient, hk, translateToEnglishModel, executeWithRetry, ht,
    jsOrOptStr, hep, executeWithRetryOpt, videoAttempt, pollVideo, pollVideo_done, hsub, hr0,
    hq, Except.map, List.replicate]

/-- Claim C7, witness: a concrete done-without-locator run. -/
theorem generateVideo_done_without_locator_witness :
    generateVideoModel "k" "p" "img" "720p" c6TranslateO c6SubmitO c7RefetchO c6FetchO 1 =
      some (.error videoFailedError,
        [NetCall.generate (translateRequest "p"),
         NetCall.submitVideo "a red fox" "img" "720p",
         NetCall.pollOp]) :=
  generateVideo_done_without_locator "k" "p" "img" "720p" "a red fox" none c6TranslateO
    c6SubmitO c7RefetchO c6FetchO 0 (by decide) rfl (by decide) rfl rfl

/-- Claim C8, counterexample: a response whose first inline part declares
mime type image/jpeg still yields the descriptor "data:image/png;base64,..."
— the stage does not return the part's declared mime type, refuting the
claim's "together with that part's declared mime type". -/
theorem storyboardImage_mime_ignored_cex :
    (generateStoryboardImageModel "k" "p" cexImgOracle).1 = .ok "data:image/png;base64,QUJD"
    ∧ (generateStoryboardImageModel "k" "p" cexImgOracle).1 ≠ .ok "data:image/jpeg;base64,QUJD"
    ∧ strContains "data:image/png;base64,QUJD" "image/jpeg" = false := by
  refine ⟨rfl, fun h => ?_, by decide⟩
  injection h with h1
  exact absurd h1 (by decide)

/-- Claim C8, amended: the storyboard-image stage uses the first content part
carrying inline binary data; if no such part exists it fails with the
MissingMediaPayload error ("تصویر تولید نشد."), and on success it returns a
data-URL descriptor built from the binary payload with the fixed mime type
image/png, ignoring the part's declared mime type. -/
theorem storyboardImage_first_inline_extraction
    (key promptText : String) (oracle : Nat → Except JsError GenResponse)
    (resp : GenResponse) (hk : key ≠ "") (h0 : oracle 0 = .ok resp) :
    (firstCandidateInline resp = none →
      (generateStoryboardImageModel key promptText oracle).1 = .error ⟨"تصویر تولید نشد.", none⟩)
    ∧ (∀ blob, firstCandidateInline resp = some blob →
        (generateStoryboardImageModel key promptText oracle).1 =
          .ok ("data:image/png;base64," ++ blob.data)) := by
  have hq : isQuotaError ⟨"تصویر تولید نشد.", none⟩ = false := by decide
  constructor
  · intro hnone
    simp [generateStoryboardImageModel, getAiClient, hk, executeWithRetry, h0, hnone, jsOrStr, hq]
  · intro blob hsome
    simp [generateStoryboardImageModel, getAiClient, hk, executeWithRetry, h0, hsome]

/-- Claim C8, witness: the concrete image/jpeg-declared response run. -/
theorem storyboardImage_first_inline_extraction_witness :
    (firstCandidateInline c8Response = none →
      (generateStoryboardImageModel "k" "p" cexImgOracle).1 = .error ⟨"تصویر تولید نشد.", none⟩)
    ∧ (∀ blob, firstCandidateInline c8Response = some blob →
        (generateStoryboardImageModel "k" "p" cexImgOracle).1 =
          .ok ("data:image/png;base64," ++ blob.data)) :=
  storyboardImage_first_inline_extraction "k" "p" cexImgOracle c8Response (by decide) rfl

/-- Claim C9: for every script, a successful multi-speaker synthesis returns
a container with sample rate 24000 Hz and 1 channel, and the request maps
exactly the two fixed speaker labels to the two fixed distinct voice
identifiers Puck and Kore, independent of the script's content. -/
theorem multiSpeakerAudio_fixed_container_and_voices
    (key script b64 : String) (decode : String → List Nat)
    (oracle : Nat → Except JsError GenResponse) (resp : GenResponse)
    (hk : key ≠ "") (h0 : oracle 0 = .ok resp)
    (hb : firstInlineAudioData resp = some b64) :
    (generateMultiSpeakerAudioModel key script decode oracle).1 =
      .ok ⟨24000, 1, decode b64⟩
    ∧ (generateMultiSpeakerAudioModel key script decode oracle).2 =
      [NetCall.multiSpeechGenerate [ContentPart.text (multiSpeakerPromptText script)] multiSpeakerVoices]
    ∧ multiSpeakerVoices = [("علی", "Puck"), ("رضا", "Kore")]
    ∧ ("Puck" : String) ≠ "Kore" := by
  refine ⟨?_, ?_, rfl, by decide⟩
  · simp [generateMultiSpeakerAudioModel, getAiClient, hk, executeWithRetry, h0, hb, pcmToWav]
  · simp [generateMultiSpeakerAudioModel, getAiClient, hk, executeWithRetry, h0, hb]

/-- Claim C9, witness: a concrete two-line-script synthesis run. -/
theorem multiSpeakerAudio_fixed_container_and_voices_witness :
    (generateMultiSpeakerAudioModel "k" "hello" c9Decode c9Oracle).1 =
      .ok ⟨24000, 1, c9Decode "QUJD"⟩
    ∧ (generateMultiSpeakerAudioModel "k" "hello" c9Decode c9Oracle).2 =
      [NetCall.multiSpeechGenerate [ContentPart.text (multiSpeakerPromptText "hello")] multiSpeakerVoices]
    ∧ multiSpeakerVoices = [("علی", "Puck"), ("رضا", "Kore")]
    ∧ ("Puck" : String) ≠ "Kore" :=
  multiSpeakerAudio_fixed_container_and_voices "k" "hello" "QUJD" c9Decode c9Oracle c9Response
    (by decide) rfl rfl

/-- Claim C10: setApiKey stores the key with every character outside
printable ASCII removed and surrounding whitespace trimmed; and for every
non-empty key consisting only of removable characters (non-printables and
spaces), the stored credential is empty and every stage invocation with it
fails with the MissingCredential error and zero remote calls. -/
theorem setApiKey_sanitization (k : String) :
    setApiKey k = claimSanitize k ∧
    (k ≠ "" → (∀ c ∈ k.data, c.toNat < 0x20 ∨ 0x7E < c.toNat ∨ c.toNat = 0x20) →
      setApiKey k = "" ∧ stagesFailMissingCredential (setApiKey k)) := by
  constructor
  · have hf : printableAscii = fun c : Char => !(c.toNat < 0x20 || 0x7E < c.toNat) := by
      funext c
      simp [printableAscii, Bool.not_or, ← decide_not, Nat.not_lt]
    unfold setApiKey claimSanitize
    rw [hf]
  · intro hne hall
    have hz : setApiKey k = "" := setApiKey_removable_empty k hall
    exact ⟨hz, hz ▸ stagesFail_empty⟩

/-- Claim C10, witness: a non-empty key of two non-printables and a space is
sanitized to the empty credential and every stage then fails fast. -/
theorem setApiKey_sanitization_witness :
    setApiKey "\x01 \x02" = "" ∧ stagesFailMissingCredential (setApiKey "\x01 \x02") :=
  (setApiKey_sanitization "\x01 \x02").2 (by decide) (by decide)
